import Mathlib

/-!
Shallow embedding of the Dynamic Airflow Balancing (DAB) engine of the
smarter-flair-vents integration, together with theorems settling the frozen
claims about it.

Python floats are modelled as exact rationals (`ℚ`); the one transcendental
computation (`math.exp` in `calculate_vent_open_percentage`) is modelled over
`ℝ` with `Real.exp`.  Python dictionaries (insertion ordered, update in place,
append new keys at the end) are modelled as association lists.  Python's
`round` builtin (round half to even) is modelled by `roundHalfEven`.
-/

/-- Configuration values for DAB calculations, mirroring `DabSettings` in
`dab.py` (field for field, defaults in `DEFAULT_SETTINGS`). -/
structure DabSettings where
  max_temp_change_rate : ℚ
  min_temp_change_rate : ℚ
  setpoint_offset : ℚ
  vent_pre_adjust_threshold : ℚ
  max_minutes_to_setpoint : ℚ
  min_minutes_to_setpoint : ℚ
  min_runtime_for_rate_calc : ℚ
  temp_sensor_accuracy : ℚ
  min_detectable_temp_change : ℚ
  min_combined_vent_flow : ℚ
  increment_percentage : ℚ
  max_standard_vents : ℤ
  max_iterations : ℕ
  standard_vent_default_open : ℚ
  rebalancing_tolerance : ℚ
  temp_boundary_adjustment : ℚ
  thermostat_hysteresis : ℚ
  base_const : ℚ
  exp_const : ℚ

/-- Default settings (`DEFAULT_SETTINGS = DabSettings()` in `dab.py`). -/
def DEFAULT_SETTINGS : DabSettings :=
  { max_temp_change_rate := 3/2
    min_temp_change_rate := 1/1000
    setpoint_offset := 7/10
    vent_pre_adjust_threshold := 1/5
    max_minutes_to_setpoint := 60
    min_minutes_to_setpoint := 1
    min_runtime_for_rate_calc := 5
    temp_sensor_accuracy := 1/2
    min_detectable_temp_change := 1/10
    min_combined_vent_flow := 30
    increment_percentage := 3/2
    max_standard_vents := 15
    max_iterations := 500
    standard_vent_default_open := 50
    rebalancing_tolerance := 1/2
    temp_boundary_adjustment := 1/10
    thermostat_hysteresis := 3/5
    base_const := 991/10000
    exp_const := 23/10 }

/-- Python's builtin `round` to an integer: round half to even. -/
def roundHalfEven (q : ℚ) : ℤ :=
  let f := ⌊q⌋
  let r := q - (f : ℚ)
  if r < 1/2 then f
  else if 1/2 < r then f + 1
  else if f % 2 = 0 then f else f + 1

/-- Model of `round_big_decimal(value, scale)` in `dab.py`
(`round(float(value), scale)`). -/
def round_big_decimal (value : ℚ) (scale : ℕ) : ℚ :=
  (roundHalfEven (value * 10 ^ scale) : ℚ) / 10 ^ scale

/-- Model of `round_to_nearest_multiple(value, granularity)` in `dab.py`:
`math.floor(q + 0.5)` for nonnegative quotients, `math.ceil(q - 0.5)` for
negative ones, times the granularity; plain `round` when `granularity <= 0`. -/
def round_to_nearest_multiple (value : ℚ) (granularity : ℤ) : ℤ :=
  if granularity ≤ 0 then roundHalfEven value
  else
    let quotient := value / (granularity : ℚ)
    let rounded := if 0 ≤ quotient then ⌊quotient + 1/2⌋ else ⌈quotient - 1/2⌉
    rounded * granularity

/-- Model of `rolling_average(current_average, new_number, weight, num_entries)`
in `dab.py`.  `current_average` is `float | None`; Python's truthiness test
`not current_average` is true for both `None` and `0.0`, captured by the
`match`/`if c = 0` combination. -/
def rolling_average (current_average : Option ℚ) (new_number : ℚ) (weight : ℚ)
    (num_entries : ℤ) : ℚ :=
  if num_entries ≤ 0 then 0
  else
    let base :=
      match current_average with
      | none => new_number
      | some c => if c = 0 then new_number else c
    let total := base * ((num_entries : ℚ) - 1)
    let weighted_value := (new_number - base) * weight
    let total2 := total + (base + weighted_value)
    total2 / (num_entries : ℚ)

/-- Model of `has_room_reached_setpoint(hvac_mode, setpoint, current_temp, offset)`
in `dab.py`. -/
def has_room_reached_setpoint (hvac_mode : String) (setpoint current_temp offset : ℚ) :
    Bool :=
  if hvac_mode = "cooling" then decide (current_temp ≤ setpoint - offset)
  else decide (setpoint + offset ≤ current_temp)

/-- Model of `calculate_room_change_rate` in `dab.py`.  The Python conditional
expression `... if max_rate else 0` (truthiness) is the `if max_rate = 0` test. -/
def calculate_room_change_rate (last_start_temp current_temp total_minutes : ℚ)
    (percent_open : ℤ) (current_rate : ℚ) (settings : DabSettings) : ℚ :=
  if total_minutes < settings.min_minutes_to_setpoint then -1
  else if total_minutes < settings.min_runtime_for_rate_calc then -1
  else if percent_open ≤ 0 then -1
  else
    let diff_temps := |last_start_temp - current_temp|
    if diff_temps < settings.min_detectable_temp_change then
      (if 30 ≤ percent_open then settings.min_temp_change_rate else -1)
    else
      let diff_temps2 :=
        if diff_temps < settings.temp_sensor_accuracy then
          max diff_temps settings.min_detectable_temp_change
        else diff_temps
      let rate := diff_temps2 / total_minutes
      let p_open := (percent_open : ℚ) / 100
      let max_rate := max rate current_rate
      let approx_rate := if max_rate = 0 then 0 else (rate / max_rate) / p_open
      if settings.max_temp_change_rate < approx_rate then -1
      else if approx_rate < settings.min_temp_change_rate then
        settings.min_temp_change_rate
      else approx_rate

/-- Per-vent state dictionary entry (`{"rate": ..., "temp": ..., "active": ...,
"name": ...}`) as read by the `dab.py` map functions.  The Python code reads the
keys with defaults and `or 0` coercions (`float(state_val.get("temp", 0) or 0)`
etc.); the structure models the already-coerced values. -/
structure VentState where
  rate : ℚ
  temp : ℚ
  active : Bool
  name : String

/-- Model of `calculate_longest_minutes_to_target` in `dab.py`.  The Python
`for` loop over `rate_and_temp_per_vent_id.values()` with `longest_time = -1.0`
is a left fold; `continue` branches return the accumulator unchanged.  A vent
with `rate == 0` is skipped entirely ("no signal"); a vent with `rate < 0`
keeps `minutes_to_target = -1.0` and still reaches the final cap and `max`. -/
def calculate_longest_minutes_to_target (rate_and_temp_per_vent_id : List (String × VentState))
    (hvac_mode : String) (setpoint max_running_time : ℚ) (close_inactive : Bool)
    (settings : DabSettings) : ℚ :=
  rate_and_temp_per_vent_id.foldl
    (fun longest_time p =>
      let state_val := p.2
      if close_inactive && !state_val.active then longest_time
      else if has_room_reached_setpoint hvac_mode setpoint state_val.temp 0 then longest_time
      else if 0 < state_val.rate then
        let m0 := |setpoint - state_val.temp| / state_val.rate
        let m1 := if max_running_time * 2 < m0 then max_running_time else m0
        let m2 := if max_running_time < m1 then max_running_time else m1
        max longest_time m2
      else if state_val.rate = 0 then longest_time
      else
        let m2 := if max_running_time < (-1 : ℚ) then max_running_time else (-1 : ℚ)
        max longest_time m2)
    (-1)

/-- First-match lookup in an association list, the model of `dict.get(key)`. -/
def lookupBy {α : Type} (m : List (String × α)) (k : String) : Option α :=
  (m.find? (fun p => p.1 == k)).map (fun p => p.2)

/-- Model of `dict[key] = value`: overwrite the first binding of the key in
place, or append a new binding at the end (Python dicts keep insertion order). -/
def setBy {α : Type} (m : List (String × α)) (k : String) (v : α) :
    List (String × α) :=
  match m with
  | [] => [(k, v)]
  | (k0, v0) :: rest => if k0 = k then (k0, v) :: rest else (k0, v0) :: setBy rest k v

/-- Model of `calculated_percent_open.get(vent_id, 0) or 0` (the `or 0` maps a
missing or zero value to `0`, which is the identity on `ℚ` here). -/
def getD0 (m : List (String × ℚ)) (k : String) : ℚ :=
  (lookupBy m k).getD 0

/-- One sweep of the inner `for vent_id, state_val in rate_and_temp_per_vent_id.items()`
loop of `adjust_for_minimum_airflow`: vents already at `>= 100` are skipped, every
other vent receives `increment_percentage * proportion`, and the sweep `break`s
as soon as the remaining deficit `diff_percentage_sum` drops to `<= 0`. -/
def airflowPass (rate_and_temp_per_vent_id : List (String × VentState)) (hvac_mode : String)
    (min_temp max_temp : ℚ) (settings : DabSettings)
    (calculated_percent_open : List (String × ℚ)) (diff_percentage_sum : ℚ) :
    List (String × ℚ) × ℚ :=
  match rate_and_temp_per_vent_id with
  | [] => (calculated_percent_open, diff_percentage_sum)
  | (vent_id, state_val) :: rest =>
    let percent_open_val := getD0 calculated_percent_open vent_id
    if 100 ≤ percent_open_val then
      airflowPass rest hvac_mode min_temp max_temp settings calculated_percent_open
        diff_percentage_sum
    else
      let proportion : ℚ :=
        if max_temp = min_temp then 0
        else if hvac_mode = "cooling" then (state_val.temp - min_temp) / (max_temp - min_temp)
        else (max_temp - state_val.temp) / (max_temp - min_temp)
      let increment := settings.increment_percentage * proportion
      let percent_open_val2 := percent_open_val + increment
      let calc2 := setBy calculated_percent_open vent_id percent_open_val2
      let diff2 := diff_percentage_sum - increment
      if diff2 ≤ 0 then (calc2, diff2)
      else airflowPass rest hvac_mode min_temp max_temp settings calc2 diff2

/-- The `while diff_percentage_sum > 0 and iterations < settings.max_iterations`
loop of `adjust_for_minimum_airflow`, with the iteration counter as fuel. -/
def airflowLoop (fuel : ℕ) (rate_and_temp_per_vent_id : List (String × VentState))
    (hvac_mode : String) (min_temp max_temp : ℚ) (settings : DabSettings)
    (calculated_percent_open : List (String × ℚ)) (diff_percentage_sum : ℚ) :
    List (String × ℚ) × ℚ :=
  match fuel with
  | 0 => (calculated_percent_open, diff_percentage_sum)
  | Nat.succ f =>
    if 0 < diff_percentage_sum then
      let r := airflowPass rate_and_temp_per_vent_id hvac_mode min_temp max_temp settings
        calculated_percent_open diff_percentage_sum
      airflowLoop f rate_and_temp_per_vent_id hvac_mode min_temp max_temp settings r.1 r.2
    else (calculated_percent_open, diff_percentage_sum)

/-- Model of `adjust_for_minimum_airflow` in `dab.py`.  `min(temps)` /
`max(temps)` over the nonempty temperature list are the `foldl min` / `foldl
max`; the empty-map fallback is the literal `(20.0, 25.0)` pair. -/
def adjust_for_minimum_airflow (rate_and_temp_per_vent_id : List (String × VentState))
    (hvac_mode : String) (calculated_percent_open : List (String × ℚ))
    (additional_standard_vents : ℤ) (settings : DabSettings) : List (String × ℚ) :=
  let base_count : ℤ := if 0 < additional_standard_vents then additional_standard_vents else 0
  let total_device_count : ℤ := base_count + calculated_percent_open.length
  let sum_percentages : ℚ :=
    (base_count : ℚ) * settings.standard_vent_default_open
      + (calculated_percent_open.map (fun p => p.2)).sum
  if total_device_count ≤ 0 then calculated_percent_open
  else
    let temps := rate_and_temp_per_vent_id.map (fun p => p.2.temp)
    let bounds : ℚ × ℚ :=
      match temps with
      | [] => (20, 25)
      | t :: ts =>
        (ts.foldl min t - settings.temp_boundary_adjustment,
         ts.foldl max t + settings.temp_boundary_adjustment)
    let combined_flow_percentage := sum_percentages / (total_device_count : ℚ)
    if settings.min_combined_vent_flow ≤ combined_flow_percentage then
      calculated_percent_open
    else
      let target_percent_sum := settings.min_combined_vent_flow * (total_device_count : ℚ)
      let diff_percentage_sum := target_percent_sum - sum_percentages
      (airflowLoop settings.max_iterations rate_and_temp_per_vent_id hvac_mode
        bounds.1 bounds.2 settings calculated_percent_open diff_percentage_sum).1

/-- Model of `FlairCoordinator._calculate_temp_error(hvac_action, setpoint, temp)`
in `coordinator.py`. -/
def calculate_temp_error (hvac_action : String) (setpoint : ℚ) (temp : Option ℚ) :
    Option ℚ :=
  match temp with
  | none => none
  | some t =>
    if hvac_action = "heating" then some (max 0 (setpoint - t))
    else if hvac_action = "cooling" then some (max 0 (t - setpoint))
    else none

/-- Per-pass configuration of the per-vent command loop at the end of
`_async_apply_dab_adjustments` (`coordinator.py`): the options and thermostat
data that are fixed across the vents of one adjustment pass.  Times are in
minutes since an arbitrary epoch. -/
structure AdjustContext where
  granularity : ℤ
  min_adjust_percent : ℚ
  min_adjust_interval : ℚ
  temp_error_override : ℚ
  close_inactive : Bool
  hvac_action : String
  setpoint : ℚ
  now : ℚ

/-- Per-vent inputs of one iteration of the command loop: the computed target,
the vent's reported `percent-open` attribute (absent readings are `none`), the
room temperature and active flag, and `_vent_last_commanded[vent_id]`. -/
structure VentAdjustInput where
  target : ℚ
  current : Option ℤ
  temp : ℚ
  active : Bool
  last_commanded : Option ℚ

/-- The `override` condition of the command loop:
`error is not None and error >= temp_error_override`. -/
def override_condition (ctx : AdjustContext) (v : VentAdjustInput) : Bool :=
  match calculate_temp_error ctx.hvac_action ctx.setpoint (some v.temp) with
  | none => false
  | some e => decide (ctx.temp_error_override ≤ e)

/-- The `safety_override` condition of the command loop:
`close_inactive and not active and target_rounded > 0`. -/
def safety_override_condition (ctx : AdjustContext) (v : VentAdjustInput) : Bool :=
  ctx.close_inactive && !v.active
    && decide (0 < round_to_nearest_multiple v.target ctx.granularity)

/-- Model of one iteration of the `for vent_id, target in targets.items()` loop
of `_async_apply_dab_adjustments` (`coordinator.py` lines 986-1009).  The result
is the emitted command (`none` when the iteration `continue`s without calling
`async_set_vent_position`) together with the vent's `_vent_last_commanded`
entry after the iteration. -/
def apply_vent_adjustment (ctx : AdjustContext) (v : VentAdjustInput) :
    Option ℤ × Option ℚ :=
  let target_rounded := round_to_nearest_multiple v.target ctx.granularity
  match v.current with
  | none => (none, v.last_commanded)
  | some current_int =>
    if current_int = target_rounded then (none, v.last_commanded)
    else if !(override_condition ctx v) && !(safety_override_condition ctx v) then
      if 0 < ctx.min_adjust_percent
          ∧ ((|target_rounded - current_int| : ℤ) : ℚ) < ctx.min_adjust_percent then
        (none, v.last_commanded)
      else
        match v.last_commanded with
        | some last_change =>
          if ctx.now - last_change < ctx.min_adjust_interval then (none, v.last_commanded)
          else (some target_rounded, some ctx.now)
        | none => (some target_rounded, some ctx.now)
    else (some target_rounded, some ctx.now)

/-- Room reference carried by a vent in the coordinator's fetched device data:
`vent["room"]["id"]` and `vent["room"]["attributes"]["name"]`, each possibly
absent. -/
structure RoomRef where
  id : Option String
  name : Option String

/-- One vent's learned rates, the value type of `self._vent_rates`:
a dict that may lack either of the "cooling"/"heating" keys. -/
structure RateEntry where
  cooling : Option ℚ
  heating : Option ℚ

/-- The coordinator state touched by the efficiency export/import:
`_vent_rates`, `_max_rates`, and the fetched device data `self.data["vents"]`
reduced to each vent's room reference. -/
structure CoordState where
  vent_rates : List (String × RateEntry)
  max_cooling : Option ℚ
  max_heating : Option ℚ
  vents_data : List (String × RoomRef)

/-- Model of `get_room_for_vent`: the room dict of a vent in the fetched data,
empty (`{}` = both fields absent) when the vent is unknown. -/
def get_room_for_vent (s : CoordState) (vent_id : String) : RoomRef :=
  (lookupBy s.vents_data vent_id).getD ⟨none, none⟩

/-- Model of `self._vent_rates.get(vent_id, {}).get(mode, 0.0)`, the reader of
the learned per-vent rates. -/
def rate_of (rates : List (String × RateEntry)) (vent_id mode : String) : ℚ :=
  match lookupBy rates vent_id with
  | none => 0
  | some e =>
    if mode = "cooling" then e.cooling.getD 0
    else if mode = "heating" then e.heating.getD 0
    else 0

/-- Model of `get_rate` on the coordinator state. -/
def get_rate (s : CoordState) (vent_id mode : String) : ℚ :=
  rate_of s.vent_rates vent_id mode

/-- One element of the export's `roomEfficiencies` list. -/
structure ExportEntry where
  room_id : Option String
  room_name : Option String
  vent_id : String
  cooling_rate : ℚ
  heating_rate : ℚ

/-- The `efficiencyData` section of the export payload (the metadata section is
presentation-only and carries no engine state). -/
structure ExportPayload where
  max_cooling_rate : ℚ
  max_heating_rate : ℚ
  room_efficiencies : List ExportEntry

/-- The export entry built for one `(vent_id, rates)` item of `_vent_rates` by
`build_efficiency_export`. -/
def export_entry_of (s : CoordState) (p : String × RateEntry) : ExportEntry :=
  let room := get_room_for_vent s p.1
  { room_id := room.id
    room_name := room.name
    vent_id := p.1
    cooling_rate := p.2.cooling.getD 0
    heating_rate := p.2.heating.getD 0 }

/-- Model of `build_efficiency_export` in `coordinator.py`: one entry per item
of `_vent_rates`, in dict order, plus the global max rates
(`self._max_rates.get(..., 0.0)`). -/
def build_efficiency_export (s : CoordState) : ExportPayload :=
  { max_cooling_rate := s.max_cooling.getD 0
    max_heating_rate := s.max_heating.getD 0
    room_efficiencies := s.vent_rates.map (export_entry_of s) }

/-- Model of `_coerce_rate` in `coordinator.py` on a numeric value: negative
rates are rejected as `None`. -/
def coerce_rate (value : ℚ) : Option ℚ :=
  if value < 0 then none else some value

/-- The `room_by_id` buckets of `async_import_efficiency`: vents of the fetched
data whose room id is truthy (present and nonempty) and equal to the looked-up
id, in data order. -/
def candidates_by_room_id (d : List (String × RoomRef)) (rid : String) : List String :=
  (d.filter (fun p =>
    match p.2.id with
    | some r => !(r == "") && r == rid
    | none => false)).map (fun p => p.1)

/-- The `room_by_name` buckets of `async_import_efficiency`: vents of the
fetched data whose room name is truthy and equal to the looked-up name after
lowercasing both sides. -/
def candidates_by_room_name (d : List (String × RoomRef)) (nm : String) : List String :=
  (d.filter (fun p =>
    match p.2.name with
    | some r => !(r == "") && r.toLower == nm.toLower
    | none => false)).map (fun p => p.1)

/-- One iteration of the `for entry in entries` loop of
`async_import_efficiency`: resolve the target vent (vent id first, then room-id
bucket, then room-name bucket, preferring a vent not in `used_vents`, else the
first candidate), coerce both rates, and either update `_vent_rates` and
`used_vents` (applied) or count the entry unmatched.  The accumulator is
`(_vent_rates, used_vents, applied, unmatched)`. -/
def import_step (vents_data : List (String × RoomRef))
    (acc : List (String × RateEntry) × List String × ℕ × ℕ) (entry : ExportEntry) :
    List (String × RateEntry) × List String × ℕ × ℕ :=
  let rates := acc.1
  let used := acc.2.1
  let applied := acc.2.2.1
  let unmatched := acc.2.2.2
  let target : Option String :=
    if entry.vent_id ≠ "" ∧ (lookupBy vents_data entry.vent_id).isSome then
      some entry.vent_id
    else
      let c1 : List String :=
        match entry.room_id with
        | some rid => candidates_by_room_id vents_data rid
        | none => []
      let cands : List String :=
        if c1.isEmpty then
          match entry.room_name with
          | some nm => if nm ≠ "" then candidates_by_room_name vents_data nm else []
          | none => []
        else c1
      match cands.find? (fun c => !(used.contains c)) with
      | some c => some c
      | none => cands.head?
  match target with
  | none => (rates, used, applied, unmatched + 1)
  | some target_vent =>
    let c := coerce_rate entry.cooling_rate
    let h := coerce_rate entry.heating_rate
    if c = none ∧ h = none then (rates, used, applied, unmatched + 1)
    else
      let old := (lookupBy rates target_vent).getD ⟨none, none⟩
      let new_entry : RateEntry :=
        { cooling := match c with | some x => some x | none => old.cooling
          heating := match h with | some x => some x | none => old.heating }
      (setBy rates target_vent new_entry, target_vent :: used, applied + 1, unmatched)

/-- Model of `async_import_efficiency` in `coordinator.py` applied to a
well-formed payload: update `_max_rates` from the coerced global rates, then
fold `import_step` over the entries.  Returns the new state together with the
final `used_vents` list and the `applied`/`unmatched` counters. -/
def import_efficiency (s : CoordState) (payload : ExportPayload) :
    CoordState × List String × ℕ × ℕ :=
  let s1 : CoordState :=
    { s with
      max_cooling :=
        match coerce_rate payload.max_cooling_rate with
        | some x => some x
        | none => s.max_cooling
      max_heating :=
        match coerce_rate payload.max_heating_rate with
        | some x => some x
        | none => s.max_heating }
  let r := payload.room_efficiencies.foldl (import_step s.vents_data)
    (s1.vent_rates, [], 0, 0)
  ({ s1 with vent_rates := r.1 }, r.2.1, r.2.2.1, r.2.2.2)

/-- Real-valued twin of `has_room_reached_setpoint`, used by the exponential
model where `math.exp` forces the embedding into `ℝ`. -/
def has_room_reached_setpointR (hvac_mode : String) (setpoint current_temp offset : ℝ) :
    Prop :=
  if hvac_mode = "cooling" then current_temp ≤ setpoint - offset
  else setpoint + offset ≤ current_temp

/-- Real-valued twin of `roundHalfEven` (Python's builtin `round` to an
integer, half to even). -/
noncomputable def roundHalfEvenR (x : ℝ) : ℤ :=
  if Int.fract x < 1/2 then ⌊x⌋
  else if 1/2 < Int.fract x then ⌊x⌋ + 1
  else if ⌊x⌋ % 2 = 0 then ⌊x⌋ else ⌊x⌋ + 1

/-- Real-valued twin of `round_big_decimal`. -/
noncomputable def round_big_decimalR (value : ℝ) (scale : ℕ) : ℝ :=
  (roundHalfEvenR (value * 10 ^ scale) : ℝ) / 10 ^ scale

open Classical

/-- Model of `calculate_vent_open_percentage` in `dab.py`, over `ℝ` because of
`math.exp`.  The settings' rational constants are cast into `ℝ`. -/
noncomputable def calculate_vent_open_percentage (room_name : String)
    (start_temp setpoint : ℝ) (hvac_mode : String) (max_rate longest_time : ℝ)
    (settings : DabSettings) : ℝ :=
  if has_room_reached_setpointR hvac_mode setpoint start_temp 0 then 0
  else if max_rate ≤ 0 ∨ longest_time ≤ 0 then 100
  else
    let target_rate := |setpoint - start_temp| / longest_time
    let percentage_open :=
      (settings.base_const : ℝ) * Real.exp (target_rate / max_rate * (settings.exp_const : ℝ))
    let percentage_open2 := round_big_decimalR (percentage_open * 100) 3
    if percentage_open2 < 0 then 0
    else if 100 < percentage_open2 then 100
    else percentage_open2

lemma roundHalfEven_of_lower (q : ℚ) (n : ℤ) (h1 : (n:ℚ) ≤ q) (h2 : q < (n:ℚ) + 1/2) :
    roundHalfEven q = n := by
  have hf : ⌊q⌋ = n := Int.floor_eq_iff.mpr ⟨h1, by push_cast; linarith⟩
  simp only [roundHalfEven, hf]
  rw [if_pos (by linarith)]

lemma roundHalfEven_of_upper (q : ℚ) (n : ℤ) (h1 : (n:ℚ) + 1/2 < q) (h2 : q < (n:ℚ) + 1) :
    roundHalfEven q = n + 1 := by
  have hf : ⌊q⌋ = n := Int.floor_eq_iff.mpr ⟨by linarith, by push_cast; linarith⟩
  simp only [roundHalfEven, hf]
  rw [if_neg (by linarith), if_pos (by linarith)]

lemma round_to_nearest_multiple_int_mul (r g : ℤ) (hg : 0 < g) :
    round_to_nearest_multiple ((r * g : ℤ) : ℚ) g = r * g := by
  have hgQ : (g : ℚ) ≠ 0 := Int.cast_ne_zero.mpr hg.ne'
  have hq : ((r * g : ℤ) : ℚ) / (g : ℚ) = (r : ℚ) := by push_cast; field_simp
  unfold round_to_nearest_multiple
  rw [if_neg (not_le.mpr hg)]
  simp only [hq]
  by_cases hr : 0 ≤ (r : ℚ)
  · rw [if_pos hr, Int.floor_eq_iff.mpr ⟨le_add_of_nonneg_right (by norm_num), by norm_num⟩]
  · rw [if_neg hr, show ⌈(r:ℚ) - 1/2⌉ = r from Int.ceil_eq_iff.mpr ⟨by norm_num, by norm_num⟩]

/-- C8: for every granularity greater than zero, `round_to_nearest_multiple` is
idempotent, and values exactly halfway between multiples round away from zero:
12.5 with granularity 5 gives 15 and -12.5 gives -15. -/
theorem round_to_nearest_multiple_idempotent_ties :
    (∀ (x : ℚ) (g : ℤ), 0 < g →
      round_to_nearest_multiple ((round_to_nearest_multiple x g : ℤ) : ℚ) g
        = round_to_nearest_multiple x g) ∧
    round_to_nearest_multiple (25/2) 5 = 15 ∧
    round_to_nearest_multiple (-(25/2)) 5 = -15 := by
  refine ⟨?_, ?_, ?_⟩
  · intro x g hg
    obtain ⟨r, hr⟩ : ∃ r : ℤ, round_to_nearest_multiple x g = r * g := by
      unfold round_to_nearest_multiple
      rw [if_neg (not_le.mpr hg)]
      exact ⟨_, rfl⟩
    rw [hr]
    exact round_to_nearest_multiple_int_mul r g hg
  · unfold round_to_nearest_multiple
    rw [if_neg (by norm_num : ¬ (5 : ℤ) ≤ 0)]
    simp only [show (25/2 : ℚ) / ((5:ℤ) : ℚ) = 5/2 by push_cast; norm_num]
    rw [if_pos (by norm_num : (0:ℚ) ≤ 5/2)]
    rw [show ⌊(5/2 : ℚ) + 1/2⌋ = 3 from Int.floor_eq_iff.mpr ⟨by push_cast; norm_num, by push_cast; norm_num⟩]
    norm_num
  · unfold round_to_nearest_multiple
    rw [if_neg (by norm_num : ¬ (5 : ℤ) ≤ 0)]
    simp only [show (-(25/2) : ℚ) / ((5:ℤ) : ℚ) = -(5/2) by push_cast; norm_num]
    rw [if_neg (by norm_num : ¬ (0:ℚ) ≤ -(5/2))]
    rw [show ⌈(-(5/2) : ℚ) - 1/2⌉ = -3 from Int.ceil_eq_iff.mpr ⟨by push_cast; norm_num, by push_cast; norm_num⟩]
    norm_num

/-- Witness for C8: the idempotence theorem applied at value 7.3, granularity 5. -/
theorem round_to_nearest_multiple_idempotent_ties_witness :
    round_to_nearest_multiple ((round_to_nearest_multiple (73/10) 5 : ℤ) : ℚ) 5
      = round_to_nearest_multiple (73/10) 5 :=
  round_to_nearest_multiple_idempotent_ties.1 (73/10) 5 (by norm_num)

/-- C2: `calculate_room_change_rate` returns -1 whenever `total_minutes` is below
`min_minutes_to_setpoint`, or below `min_runtime_for_rate_calc`, or
`percent_open` is not positive; and with default settings the regression
fixtures (20,30,5,100,0.03), (20,20.1,60,100,0.03) and (20.768,21,5,25,0.03)
return, rounded to 3 decimals, 1.0, 0.056 and -1 respectively. -/
theorem calculate_room_change_rate_guards_fixtures :
    (∀ (a b t : ℚ) (p : ℤ) (r : ℚ), t < DEFAULT_SETTINGS.min_minutes_to_setpoint →
      calculate_room_change_rate a b t p r DEFAULT_SETTINGS = -1) ∧
    (∀ (a b t : ℚ) (p : ℤ) (r : ℚ), t < DEFAULT_SETTINGS.min_runtime_for_rate_calc →
      calculate_room_change_rate a b t p r DEFAULT_SETTINGS = -1) ∧
    (∀ (a b t : ℚ) (p : ℤ) (r : ℚ), p ≤ 0 →
      calculate_room_change_rate a b t p r DEFAULT_SETTINGS = -1) ∧
    round_big_decimal (calculate_room_change_rate 20 30 5 100 (3/100) DEFAULT_SETTINGS) 3 = 1 ∧
    round_big_decimal (calculate_room_change_rate 20 (201/10) 60 100 (3/100) DEFAULT_SETTINGS) 3
      = 56/1000 ∧
    round_big_decimal (calculate_room_change_rate (20768/1000) 21 5 25 (3/100) DEFAULT_SETTINGS) 3
      = -1 := by
  refine ⟨?_, ?_, ?_, ?_, ?_, ?_⟩
  · intro a b t p r h
    unfold calculate_room_change_rate
    rw [if_pos h]
  · intro a b t p r h
    unfold calculate_room_change_rate
    split_ifs <;> first | rfl | exact absurd h (by assumption)
  · intro a b t p r h
    unfold calculate_room_change_rate
    split_ifs <;> first | rfl | exact absurd h (by assumption)
  · have h1 : calculate_room_change_rate 20 30 5 100 (3/100) DEFAULT_SETTINGS = 1 := by
      norm_num [calculate_room_change_rate, DEFAULT_SETTINGS, max_def]
    rw [h1, round_big_decimal,
      roundHalfEven_of_lower ((1 : ℚ) * 10 ^ 3) 1000 (by norm_num) (by norm_num)]
    norm_num
  · have h2 : calculate_room_change_rate 20 (201/10) 60 100 (3/100) DEFAULT_SETTINGS = 1/18 := by
      have habs : |(1:ℚ)/10| = 1/10 := abs_of_nonneg (by norm_num)
      norm_num [calculate_room_change_rate, DEFAULT_SETTINGS, max_def, habs]
    rw [h2, round_big_decimal,
      roundHalfEven_of_upper ((1/18 : ℚ) * 10 ^ 3) 55 (by norm_num) (by norm_num)]
    norm_num
  · have h3 : calculate_room_change_rate (20768/1000) 21 5 25 (3/100) DEFAULT_SETTINGS = -1 := by
      have habs : |(29:ℚ)/125| = 29/125 := abs_of_nonneg (by norm_num)
      norm_num [calculate_room_change_rate, DEFAULT_SETTINGS, max_def, habs]
    rw [h3, round_big_decimal,
      roundHalfEven_of_lower ((-1 : ℚ) * 10 ^ 3) (-1000) (by norm_num) (by norm_num)]
    norm_num

/-- Witness for C2: each guard of the theorem applied at a concrete input. -/
theorem calculate_room_change_rate_guards_fixtures_witness :
    calculate_room_change_rate 20 21 (1/2) 100 (3/100) DEFAULT_SETTINGS = -1 ∧
    calculate_room_change_rate 20 21 3 100 (3/100) DEFAULT_SETTINGS = -1 ∧
    calculate_room_change_rate 20 21 10 0 (3/100) DEFAULT_SETTINGS = -1 :=
  ⟨calculate_room_change_rate_guards_fixtures.1 20 21 (1/2) 100 (3/100)
      (by norm_num [DEFAULT_SETTINGS]),
   calculate_room_change_rate_guards_fixtures.2.1 20 21 3 100 (3/100)
      (by norm_num [DEFAULT_SETTINGS]),
   calculate_room_change_rate_guards_fixtures.2.2.1 20 21 10 0 (3/100) (by norm_num)⟩

/-- C9: for every input, `calculate_room_change_rate` with default settings
returns either -1 or a value in the closed interval
[`min_temp_change_rate`, `max_temp_change_rate`] = [0.001, 1.5]. -/
theorem calculate_room_change_rate_range (a b t : ℚ) (p : ℤ) (r : ℚ) :
    calculate_room_change_rate a b t p r DEFAULT_SETTINGS = -1 ∨
    (DEFAULT_SETTINGS.min_temp_change_rate ≤ calculate_room_change_rate a b t p r DEFAULT_SETTINGS
      ∧ calculate_room_change_rate a b t p r DEFAULT_SETTINGS
          ≤ DEFAULT_SETTINGS.max_temp_change_rate) := by
  simp only [calculate_room_change_rate]
  split_ifs <;>
    first
      | exact Or.inl rfl
      | exact Or.inr ⟨le_refl _, by norm_num [DEFAULT_SETTINGS]⟩
      | exact Or.inr ⟨not_lt.mp (by assumption), not_lt.mp (by assumption)⟩

/-- Counterexample for C7: with window size 0 (an admissible value of the
`num_entries` parameter), `rolling_average(None, 5, 1, 0)` returns 0, not 5,
so the claim as stated over every window size fails. -/
theorem rolling_average_none_zero_window_counterexample :
    ¬ (rolling_average none 5 1 0 = 5) := by
  norm_num [rolling_average]

/-- C7 (amended): for every new value, every weight, and every positive window
size, `rolling_average(None, y, w, n)` equals `y` (no prior seed means the new
value is adopted); with `num_entries <= 0` the function returns 0 instead. -/
theorem rolling_average_none_seeds (y w : ℚ) (n : ℤ) (hn : 0 < n) :
    rolling_average none y w n = y := by
  have hne : (n : ℚ) ≠ 0 := Int.cast_ne_zero.mpr hn.ne'
  simp only [rolling_average]
  rw [if_neg (not_le.mpr hn)]
  field_simp
  ring

/-- Witness for C7: the amended theorem applied at y = 7, w = 2, n = 10. -/
theorem rolling_average_none_seeds_witness : rolling_average none 7 2 10 = 7 :=
  rolling_average_none_seeds 7 2 10 (by norm_num)

/-- C10: `rolling_average` treats a prior average of exactly 0.0 the same as
`None` (Python truthiness): for every new value, weight and window size the two
agree, and for positive window sizes the stored zero is discarded and the new
value returned unchanged. -/
theorem rolling_average_zero_seed :
    (∀ (y w : ℚ) (n : ℤ), rolling_average (some 0) y w n = rolling_average none y w n) ∧
    (∀ (y w : ℚ) (n : ℤ), 0 < n → rolling_average (some 0) y w n = y) := by
  constructor
  · intro y w n
    unfold rolling_average
    norm_num
  · intro y w n hn
    have hne : (n : ℚ) ≠ 0 := Int.cast_ne_zero.mpr hn.ne'
    unfold rolling_average
    rw [if_neg (not_le.mpr hn)]
    norm_num
    field_simp
    ring

/-- Witness for C10: the zero-seed theorem applied at y = 5, w = 3, n = 4. -/
theorem rolling_average_zero_seed_witness : rolling_average (some 0) 5 3 4 = 5 :=
  rolling_average_zero_seed.2 5 3 4 (by norm_num)

/-- Counterexample for C4: on a map with a single active vent whose rate is 0
and whose room (20 degrees, heating toward 22) has not reached the setpoint,
`calculate_longest_minutes_to_target` returns the sentinel -1, not the horizon
0 stated by the claim. -/
theorem calculate_longest_minutes_zero_rate_counterexample :
    calculate_longest_minutes_to_target [("v1", ⟨0, 20, true, "den"⟩)]
        "heating" 22 60 true DEFAULT_SETTINGS = -1 ∧
    ¬ (calculate_longest_minutes_to_target [("v1", ⟨0, 20, true, "den"⟩)]
        "heating" 22 60 true DEFAULT_SETTINGS = 0) := by
  have h : calculate_longest_minutes_to_target [("v1", ⟨0, 20, true, "den"⟩)]
      "heating" 22 60 true DEFAULT_SETTINGS = -1 := by
    simp only [calculate_longest_minutes_to_target, List.foldl_cons, List.foldl_nil]
    simp [has_room_reached_setpoint]
  exact ⟨h, by rw [h]; norm_num⟩

/-- C4 (amended): on a map with a single active vent whose rate is 0 and whose
room has not reached the setpoint, `calculate_longest_minutes_to_target`
returns the sentinel -1 (no qualifying vent) rather than a value that would
make every other vent open fully; the caller substitutes `max_running_time`
for a negative result, while a 0 horizon would force every vent to 100. -/
theorem calculate_longest_minutes_zero_rate_sentinel (vid nm : String) (mode : String)
    (temp setpoint max_running_time : ℚ)
    (h : has_room_reached_setpoint mode setpoint temp 0 = false) :
    calculate_longest_minutes_to_target [(vid, ⟨0, temp, true, nm⟩)]
      mode setpoint max_running_time true DEFAULT_SETTINGS = -1 := by
  simp only [calculate_longest_minutes_to_target, List.foldl_cons, List.foldl_nil]
  norm_num [h]

/-- Witness for C4: the sentinel theorem applied at the concrete single-vent map. -/
theorem calculate_longest_minutes_zero_rate_sentinel_witness :
    calculate_longest_minutes_to_target [("v1", ⟨0, 20, true, "den"⟩)]
      "heating" 22 60 true DEFAULT_SETTINGS = -1 :=
  calculate_longest_minutes_zero_rate_sentinel "v1" "den" "heating" 20 22 60
    (by simp [has_room_reached_setpoint]; norm_num)

lemma airflowLoop_step (f : ℕ) (vents : List (String × VentState)) (mode : String)
    (mn mx : ℚ) (s : DabSettings) (c : List (String × ℚ)) (d : ℚ) (hd : 0 < d) :
    airflowLoop (f + 1) vents mode mn mx s c d
      = airflowLoop f vents mode mn mx s
          (airflowPass vents mode mn mx s c d).1 (airflowPass vents mode mn mx s c d).2 := by
  conv_lhs => unfold airflowLoop
  rw [if_pos hd]

lemma airflowLoop_done (fuel : ℕ) (vents : List (String × VentState)) (mode : String)
    (mn mx : ℚ) (s : DabSettings) (c : List (String × ℚ)) (d : ℚ) (hd : ¬ 0 < d) :
    airflowLoop fuel vents mode mn mx s c d = (c, d) := by
  cases fuel <;> unfold airflowLoop <;> simp [hd]

example :
    airflowPass
      [("a", ⟨0, 25, true, ""⟩), ("b", ⟨0, 249/10, true, ""⟩),
       ("c", ⟨0, 249/10, true, ""⟩), ("d", ⟨0, 249/10, true, ""⟩)]
      "cooling" (124/5) (251/10) DEFAULT_SETTINGS
      [("a", 199/2), ("b", 6), ("c", 6), ("d", 6)] (5/2)
    = ([("a", 201/2), ("b", 13/2), ("c", 13/2), ("d", 13/2)], 0) := by
  simp [airflowPass, getD0, lookupBy, setBy, DEFAULT_SETTINGS, List.find?]
  norm_num

lemma foldl_min_le_init (t0 : ℚ) (ts : List ℚ) : ts.foldl min t0 ≤ t0 := by
  induction ts generalizing t0 with
  | nil => exact le_refl t0
  | cons a ts ih => exact le_trans (ih (min t0 a)) (min_le_left t0 a)

lemma foldl_min_le_mem (t : ℚ) (ts : List ℚ) (h : t ∈ ts) : ∀ t0, ts.foldl min t0 ≤ t := by
  induction ts with
  | nil => cases h
  | cons a ts ih =>
    intro t0
    rcases List.mem_cons.mp h with rfl | h2
    · exact le_trans (foldl_min_le_init (min t0 t) ts) (min_le_right t0 t)
    · exact ih h2 (min t0 a)

lemma init_le_foldl_max (t0 : ℚ) (ts : List ℚ) : t0 ≤ ts.foldl max t0 := by
  induction ts generalizing t0 with
  | nil => exact le_refl t0
  | cons a ts ih => exact le_trans (le_max_left t0 a) (ih (max t0 a))

lemma mem_le_foldl_max (t : ℚ) (ts : List ℚ) (h : t ∈ ts) : ∀ t0, t ≤ ts.foldl max t0 := by
  induction ts with
  | nil => cases h
  | cons a ts ih =>
    intro t0
    rcases List.mem_cons.mp h with rfl | h2
    · exact le_trans (le_max_right t0 t) (init_le_foldl_max (max t0 t) ts)
    · exact ih h2 (max t0 a)

lemma setBy_values (m : List (String × ℚ)) (k : String) (v : ℚ) :
    ∀ q ∈ (setBy m k v).map (fun p => p.2), q ∈ m.map (fun p => p.2) ∨ q = v := by
  induction m with
  | nil =>
    intro q hq
    simp only [setBy, List.map_cons, List.map_nil, List.mem_cons, List.not_mem_nil,
      or_false] at hq
    exact Or.inr hq
  | cons p rest ih =>
    intro q hq
    by_cases hk : p.1 = k
    · simp only [setBy, if_pos hk, List.map_cons, List.mem_cons] at hq
      rcases hq with rfl | hq
      · exact Or.inr rfl
      · exact Or.inl (by rw [List.map_cons]; exact List.mem_cons_of_mem _ hq)
    · simp only [setBy, if_neg hk, List.map_cons, List.mem_cons] at hq
      rcases hq with rfl | hq
      · exact Or.inl (by rw [List.map_cons]; exact List.mem_cons_self _ _)
      · rcases ih q hq with h | h
        · exact Or.inl (by rw [List.map_cons]; exact List.mem_cons_of_mem _ h)
        · exact Or.inr h

lemma increment_le (mn mx t : ℚ) (mode : String) (hmn : mn ≤ t) (hmx : t ≤ mx) :
    DEFAULT_SETTINGS.increment_percentage *
        (if mx = mn then 0
         else if mode = "cooling" then (t - mn) / (mx - mn) else (mx - t) / (mx - mn))
      ≤ DEFAULT_SETTINGS.increment_percentage := by
  have hinc : (0:ℚ) ≤ DEFAULT_SETTINGS.increment_percentage := by norm_num [DEFAULT_SETTINGS]
  split_ifs with h1 h2
  · simpa using hinc
  · have hlt : mn < mx := lt_of_le_of_ne (hmn.trans hmx) (Ne.symm h1)
    have hple : (t - mn) / (mx - mn) ≤ 1 := by
      rw [div_le_one (by linarith)]
      linarith
    calc DEFAULT_SETTINGS.increment_percentage * ((t - mn) / (mx - mn))
        ≤ DEFAULT_SETTINGS.increment_percentage * 1 := mul_le_mul_of_nonneg_left hple hinc
      _ = DEFAULT_SETTINGS.increment_percentage := mul_one _
  · have hlt : mn < mx := lt_of_le_of_ne (hmn.trans hmx) (Ne.symm h1)
    have hple : (mx - t) / (mx - mn) ≤ 1 := by
      rw [div_le_one (by linarith)]
      linarith
    calc DEFAULT_SETTINGS.increment_percentage * ((mx - t) / (mx - mn))
        ≤ DEFAULT_SETTINGS.increment_percentage * 1 := mul_le_mul_of_nonneg_left hple hinc
      _ = DEFAULT_SETTINGS.increment_percentage := mul_one _

lemma airflowPass_bound (vents : List (String × VentState)) (mode : String) (mn mx : ℚ)
    (cpo : List (String × ℚ)) (diff : ℚ)
    (htemp : ∀ p ∈ vents, mn ≤ p.2.temp ∧ p.2.temp ≤ mx)
    (hcalc : ∀ q ∈ cpo.map (fun p => p.2),
      q < 100 + DEFAULT_SETTINGS.increment_percentage) :
    ∀ q ∈ (airflowPass vents mode mn mx DEFAULT_SETTINGS cpo diff).1.map (fun p => p.2),
      q < 100 + DEFAULT_SETTINGS.increment_percentage := by
  induction vents generalizing cpo diff with
  | nil => exact hcalc
  | cons p rest ih =>
    obtain ⟨vid, st⟩ := p
    have htemp_head := htemp (vid, st) (by simp)
    have htemp_tail : ∀ p2 ∈ rest, mn ≤ p2.2.temp ∧ p2.2.temp ≤ mx := by
      intro p2 hp2
      exact htemp p2 (by simp [hp2])
    simp only [airflowPass]
    by_cases h100 : 100 ≤ getD0 cpo vid
    · rw [if_pos h100]
      exact ih cpo diff htemp_tail hcalc
    · rw [if_neg h100]
      have h1 : getD0 cpo vid < 100 := not_le.mp h100
      have h2 := increment_le mn mx st.temp mode htemp_head.1 htemp_head.2
      have hnew : getD0 cpo vid +
          DEFAULT_SETTINGS.increment_percentage *
            (if mx = mn then 0
             else if mode = "cooling" then (st.temp - mn) / (mx - mn)
             else (mx - st.temp) / (mx - mn))
          < 100 + DEFAULT_SETTINGS.increment_percentage := by linarith
      by_cases hd : diff -
          DEFAULT_SETTINGS.increment_percentage *
            (if mx = mn then 0
             else if mode = "cooling" then (st.temp - mn) / (mx - mn)
             else (mx - st.temp) / (mx - mn)) ≤ 0
      · rw [if_pos hd]
        intro q hq
        rcases setBy_values cpo vid _ q hq with h | rfl
        · exact hcalc q h
        · exact hnew
      · rw [if_neg hd]
        refine ih _ _ htemp_tail ?_
        intro q hq
        rcases setBy_values cpo vid _ q hq with h | rfl
        · exact hcalc q h
        · exact hnew

lemma airflowLoop_bound (fuel : ℕ) (vents : List (String × VentState)) (mode : String)
    (mn mx : ℚ) (cpo : List (String × ℚ)) (diff : ℚ)
    (htemp : ∀ p ∈ vents, mn ≤ p.2.temp ∧ p.2.temp ≤ mx)
    (hcalc : ∀ q ∈ cpo.map (fun p => p.2),
      q < 100 + DEFAULT_SETTINGS.increment_percentage) :
    ∀ q ∈ (airflowLoop fuel vents mode mn mx DEFAULT_SETTINGS cpo diff).1.map (fun p => p.2),
      q < 100 + DEFAULT_SETTINGS.increment_percentage := by
  induction fuel generalizing cpo diff with
  | zero => exact hcalc
  | succ f ih =>
    simp only [airflowLoop]
    by_cases hd : 0 < diff
    · rw [if_pos hd]
      exact ih _ _ (airflowPass_bound vents mode mn mx cpo diff htemp hcalc)
    · rw [if_neg hd]
      exact hcalc

/-- C1 (amended): for every map of per-vent targets each at most 100, every
temperature map, every hvac mode and every conventional-vent count,
`adjust_for_minimum_airflow` with default settings keeps every vent target
strictly below 100 + `increment_percentage` (= 101.5): a vent at or above 100
receives no further increment, but a vent just below 100 can overshoot 100 by
less than one increment step. -/
theorem adjust_for_minimum_airflow_bounded (vents : List (String × VentState))
    (hvac_mode : String) (cpo : List (String × ℚ)) (asv : ℤ)
    (hcalc : ∀ q ∈ cpo.map (fun p => p.2), q ≤ 100) :
    ∀ q ∈ (adjust_for_minimum_airflow vents hvac_mode cpo asv DEFAULT_SETTINGS).map
        (fun p => p.2),
      q < 100 + DEFAULT_SETTINGS.increment_percentage := by
  have hcalc2 : ∀ q ∈ cpo.map (fun p => p.2),
      q < 100 + DEFAULT_SETTINGS.increment_percentage := by
    intro q hq
    have := hcalc q hq
    norm_num [DEFAULT_SETTINGS]
    linarith
  simp only [adjust_for_minimum_airflow]
  split_ifs <;>
  first
  | exact hcalc2
  | (cases vents with
     | nil => exact airflowLoop_bound _ _ _ _ _ _ _ (by intro p hp; cases hp) hcalc2
     | cons v vs =>
       refine airflowLoop_bound _ _ _ _ _ _ _ ?_ hcalc2
       intro p hp
       have hmem : p.2.temp ∈ v.2.temp :: vs.map (fun p2 => p2.2.temp) := by
         rcases List.mem_cons.mp hp with rfl | h2
         · exact List.mem_cons_self _ _
         · exact List.mem_cons_of_mem _ (List.mem_map.mpr ⟨p, h2, rfl⟩)
       have hadj : (0:ℚ) ≤ DEFAULT_SETTINGS.temp_boundary_adjustment := by
         norm_num [DEFAULT_SETTINGS]
       have hlo : (vs.map (fun p2 => p2.2.temp)).foldl min v.2.temp ≤ p.2.temp := by
         rcases List.mem_cons.mp hmem with heq | h2
         · rw [heq]
           exact foldl_min_le_init _ _
         · exact foldl_min_le_mem _ _ h2 _
       have hhi : p.2.temp ≤ (vs.map (fun p2 => p2.2.temp)).foldl max v.2.temp := by
         rcases List.mem_cons.mp hmem with heq | h2
         · rw [heq]
           exact init_le_foldl_max _ _
         · exact mem_le_foldl_max _ _ h2 _
       exact ⟨by simpa using by linarith, by simpa using by linarith⟩)

/-- Witness for C1: the bound theorem applied to a one-vent map whose target 50
is left unchanged. -/
theorem adjust_for_minimum_airflow_bounded_witness :
    (50:ℚ) < 100 + DEFAULT_SETTINGS.increment_percentage :=
  adjust_for_minimum_airflow_bounded [] "cooling" [("a", 50)] 0
    (by intro q hq; simp at hq; rw [hq]; norm_num)
    50
    (by
      have hres : adjust_for_minimum_airflow [] "cooling" [("a", (50:ℚ))] 0 DEFAULT_SETTINGS
          = [("a", (50:ℚ))] := by
        simp [adjust_for_minimum_airflow, DEFAULT_SETTINGS]
        norm_num
      rw [hres]
      simp)

/-- Counterexample for C1: with four vents whose targets are 99.5, 6, 6 and 6
(each at most 100) and temperatures 25, 24.9, 24.9, 24.9 in cooling mode, the
combined flow 29.375 is below the floor 30 and the first redistribution
increment pushes the 99.5 vent to 100.5, above 100, refuting the claim as
stated. -/
theorem adjust_for_minimum_airflow_counterexample :
    (∀ q ∈ ([("a", (199:ℚ)/2), ("b", 6), ("c", 6), ("d", 6)]).map (fun p => p.2), q ≤ 100) ∧
    100 < getD0 (adjust_for_minimum_airflow
      [("a", ⟨0, 25, true, ""⟩), ("b", ⟨0, 249/10, true, ""⟩),
       ("c", ⟨0, 249/10, true, ""⟩), ("d", ⟨0, 249/10, true, ""⟩)]
      "cooling" [("a", 199/2), ("b", 6), ("c", 6), ("d", 6)] 0 DEFAULT_SETTINGS) "a" := by
  constructor
  · intro q hq
    simp only [List.map_cons, List.map_nil, List.mem_cons, List.not_mem_nil, or_false] at hq
    rcases hq with rfl | rfl | rfl | rfl <;> norm_num
  · have hpass : airflowPass
        [("a", ⟨0, 25, true, ""⟩), ("b", ⟨0, 249/10, true, ""⟩),
         ("c", ⟨0, 249/10, true, ""⟩), ("d", ⟨0, 249/10, true, ""⟩)]
        "cooling" (124/5) (251/10) DEFAULT_SETTINGS
        [("a", 199/2), ("b", 6), ("c", 6), ("d", 6)] (5/2)
        = ([("a", 201/2), ("b", 13/2), ("c", 13/2), ("d", 13/2)], 0) := by
      simp [airflowPass, getD0, lookupBy, setBy, DEFAULT_SETTINGS, List.find?]
      norm_num
    have hloop : airflowLoop 500
        [("a", ⟨0, 25, true, ""⟩), ("b", ⟨0, 249/10, true, ""⟩),
         ("c", ⟨0, 249/10, true, ""⟩), ("d", ⟨0, 249/10, true, ""⟩)]
        "cooling" (124/5) (251/10) DEFAULT_SETTINGS
        [("a", 199/2), ("b", 6), ("c", 6), ("d", 6)] (5/2)
        = ([("a", 201/2), ("b", 13/2), ("c", 13/2), ("d", 13/2)], 0) := by
      rw [show (500:ℕ) = 499 + 1 from rfl,
        airflowLoop_step 499 _ _ _ _ _ _ _ (by norm_num), hpass]
      exact airflowLoop_done 499 _ _ _ _ _ _ _ (by norm_num)
    have hadj : adjust_for_minimum_airflow
        [("a", ⟨0, 25, true, ""⟩), ("b", ⟨0, 249/10, true, ""⟩),
         ("c", ⟨0, 249/10, true, ""⟩), ("d", ⟨0, 249/10, true, ""⟩)]
        "cooling" [("a", 199/2), ("b", 6), ("c", 6), ("d", 6)] 0 DEFAULT_SETTINGS
        = [("a", 201/2), ("b", 13/2), ("c", 13/2), ("d", 13/2)] := by
      have hs1 : DEFAULT_SETTINGS.standard_vent_default_open = 50 := rfl
      have hs2 : DEFAULT_SETTINGS.min_combined_vent_flow = 30 := rfl
      have hs3 : DEFAULT_SETTINGS.temp_boundary_adjustment = 1/10 := rfl
      have hs4 : DEFAULT_SETTINGS.max_iterations = 500 := rfl
      simp only [adjust_for_minimum_airflow, List.map_cons, List.map_nil, List.length_cons,
        List.length_nil, List.sum_cons, List.sum_nil, List.foldl_cons, List.foldl_nil,
        hs1, hs2, hs3, hs4, min_def, max_def]
      norm_num
      exact congrArg Prod.fst hloop
    rw [hadj]
    norm_num [getD0, lookupBy, List.find?]

/-- C6: in an adjustment pass, for a vent where neither the temperature-error
override nor the safety override holds, no vent-position command is emitted and
the `last_commanded` state stays unchanged whenever the rounded target differs
from the current open percent by less than `min_adjustment_percent`, or the
vent was last commanded less than `min_adjustment_interval` minutes ago. -/
theorem adjustment_gate_suppressed (ctx : AdjustContext) (v : VentAdjustInput) (c : ℤ)
    (hcur : v.current = some c)
    (hov : override_condition ctx v = false)
    (hso : safety_override_condition ctx v = false)
    (hsup : ((|round_to_nearest_multiple v.target ctx.granularity - c| : ℤ) : ℚ)
        < ctx.min_adjust_percent
      ∨ ∃ t, v.last_commanded = some t ∧ ctx.now - t < ctx.min_adjust_interval) :
    apply_vent_adjustment ctx v = (none, v.last_commanded) := by
  simp only [apply_vent_adjustment, hcur]
  by_cases heq : c = round_to_nearest_multiple v.target ctx.granularity
  · rw [if_pos heq]
  · rw [if_neg heq, if_pos (by simp [hov, hso])]
    rcases hsup with hlt | ⟨t, hlast, hint⟩
    · have h0 : (0:ℚ) ≤ ((|round_to_nearest_multiple v.target ctx.granularity - c| : ℤ) : ℚ) := by
        exact_mod_cast abs_nonneg _
      exact if_pos ⟨lt_of_le_of_lt h0 hlt, hlt⟩
    · by_cases hp : 0 < ctx.min_adjust_percent ∧
          ((|round_to_nearest_multiple v.target ctx.granularity - c| : ℤ) : ℚ)
            < ctx.min_adjust_percent
      · exact if_pos hp
      · rw [if_neg hp, hlast]
        exact if_pos hint

/-- Witness for C6, the claim's debounce scenario: a vent commanded one second
ago (1/60 minute) whose new target 53 differs from the current 50 by 3 under
`min_adjustment_percent` = 10 and no override receives no new command. -/
theorem adjustment_gate_suppressed_witness :
    apply_vent_adjustment
      { granularity := 1, min_adjust_percent := 10, min_adjust_interval := 5,
        temp_error_override := 2, close_inactive := true, hvac_action := "heating",
        setpoint := 20, now := 100 }
      { target := 53, current := some 50, temp := 21, active := true,
        last_commanded := some (100 - 1/60) }
      = (none, some (100 - 1/60)) :=
  adjustment_gate_suppressed _ _ 50 rfl
    (by simp [override_condition, calculate_temp_error, max_def]; norm_num)
    (by simp [safety_override_condition])
    (Or.inl (by
      have hr : round_to_nearest_multiple (53 : ℚ) 1 = 53 := by
        norm_num [round_to_nearest_multiple]
      rw [hr]
      norm_num))

lemma lookupBy_cons {α : Type} (q : String × α) (rest : List (String × α)) (k : String) :
    lookupBy (q :: rest) k = if q.1 = k then some q.2 else lookupBy rest k := by
  by_cases h : q.1 = k
  · simp [lookupBy, List.find?_cons_of_pos, h]
  · simp [lookupBy, List.find?_cons_of_neg, h]

lemma lookupBy_eq_of_nodup {α : Type} (m : List (String × α)) (p : String × α)
    (hnd : (m.map Prod.fst).Nodup) (hp : p ∈ m) : lookupBy m p.1 = some p.2 := by
  induction m with
  | nil => cases hp
  | cons q rest ih =>
    rw [List.map_cons, List.nodup_cons] at hnd
    rw [lookupBy_cons]
    rcases List.mem_cons.mp hp with rfl | hp2
    · rw [if_pos rfl]
    · have hq1 : q.1 ≠ p.1 := by
        intro he
        exact hnd.1 (he ▸ List.mem_map.mpr ⟨p, hp2, rfl⟩)
      rw [if_neg hq1]
      exact ih hnd.2 hp2

lemma lookupBy_setBy_self {α : Type} (m : List (String × α)) (k : String) (v : α) :
    lookupBy (setBy m k v) k = some v := by
  induction m with
  | nil => simp [setBy, lookupBy_cons]
  | cons q rest ih =>
    by_cases hk : q.1 = k
    · simp only [setBy, if_pos hk]
      rw [lookupBy_cons, if_pos hk]
    · simp only [setBy, if_neg hk]
      rw [lookupBy_cons, if_neg hk]
      exact ih

lemma lookupBy_setBy_other {α : Type} (m : List (String × α)) (k k' : String) (v : α)
    (h : k' ≠ k) : lookupBy (setBy m k v) k' = lookupBy m k' := by
  induction m with
  | nil =>
    simp only [setBy]
    rw [lookupBy_cons, if_neg (fun he => h he.symm)]
  | cons q rest ih =>
    by_cases hk : q.1 = k
    · simp only [setBy, if_pos hk]
      rw [lookupBy_cons, lookupBy_cons]
      have : ¬ q.1 = k' := fun he => h (he ▸ hk ▸ rfl)
      rw [if_neg this, if_neg this]
    · simp only [setBy, if_neg hk]
      rw [lookupBy_cons, lookupBy_cons]
      by_cases hk' : q.1 = k'
      · rw [if_pos hk', if_pos hk']
      · rw [if_neg hk', if_neg hk']
        exact ih

lemma rate_of_setBy_other (m : List (String × RateEntry)) (k k' mode : String) (e : RateEntry)
    (h : k' ≠ k) : rate_of (setBy m k e) k' mode = rate_of m k' mode := by
  unfold rate_of
  rw [lookupBy_setBy_other m k k' e h]

lemma rate_of_setBy_self (m : List (String × RateEntry)) (k mode : String) (e : RateEntry) :
    rate_of (setBy m k e) k mode =
      (if mode = "cooling" then e.cooling.getD 0
       else if mode = "heating" then e.heating.getD 0 else 0) := by
  unfold rate_of
  rw [lookupBy_setBy_self]

lemma rate_of_getD_cooling (m : List (String × RateEntry)) (k : String) :
    ((lookupBy m k).getD ⟨none, none⟩).cooling.getD 0 = rate_of m k "cooling" := by
  unfold rate_of
  cases lookupBy m k with
  | none => rfl
  | some e => simp

lemma rate_of_getD_heating (m : List (String × RateEntry)) (k : String) :
    ((lookupBy m k).getD ⟨none, none⟩).heating.getD 0 = rate_of m k "heating" := by
  unfold rate_of
  cases lookupBy m k with
  | none => rfl
  | some e => simp

lemma import_fold_preserves (s : CoordState) (l : List (String × RateEntry))
    (cur : List (String × RateEntry)) (used : List String) (a u : ℕ)
    (hl : ∀ p ∈ l, lookupBy s.vent_rates p.1 = some p.2 ∧ p.1 ≠ "")
    (hndl : (l.map Prod.fst).Nodup)
    (hcur : ∀ vid mode, rate_of cur vid mode = rate_of s.vent_rates vid mode)
    (hused : used.Nodup)
    (husedl : ∀ x ∈ used, x ∉ l.map Prod.fst) :
    (∀ vid mode,
      rate_of ((l.map (export_entry_of s)).foldl (import_step s.vents_data)
          (cur, used, a, u)).1 vid mode
        = rate_of s.vent_rates vid mode) ∧
    ((l.map (export_entry_of s)).foldl (import_step s.vents_data) (cur, used, a, u)).2.1.Nodup := by
  induction l generalizing cur used a u with
  | nil => exact ⟨hcur, hused⟩
  | cons p rest ih =>
    obtain ⟨v, r⟩ := p
    have hv : v ≠ "" := (hl (v, r) (by simp)).2
    have hlook : lookupBy s.vent_rates v = some r := (hl (v, r) (by simp)).1
    rw [List.map_cons, List.nodup_cons] at hndl
    have hl_rest : ∀ p ∈ rest, lookupBy s.vent_rates p.1 = some p.2 ∧ p.1 ≠ "" := by
      intro p hp
      exact hl p (by simp [hp])
    simp only [List.map_cons, List.foldl_cons]
    cases hd : lookupBy s.vents_data v with
    | none =>
      have hstep : import_step s.vents_data (cur, used, a, u) (export_entry_of s (v, r))
          = (cur, used, a, u + 1) := by
        simp [import_step, export_entry_of, get_room_for_vent, hd, hv]
      rw [hstep]
      exact ih cur used a (u + 1) hl_rest hndl.2 hcur hused
        (fun x hx => fun hmem => husedl x hx (by simp [hmem]))
    | some room =>
      have hvnotused : v ∉ used := by
        intro hvu
        exact husedl v hvu (by simp)
      have hsome : (lookupBy s.vents_data v).isSome = true := by rw [hd]; rfl
      have hrew : ∀ (e : RateEntry),
          (∀ vid mode, rate_of (setBy cur v e) vid mode
              = (if vid = v then
                  (if mode = "cooling" then e.cooling.getD 0
                   else if mode = "heating" then e.heating.getD 0 else 0)
                 else rate_of cur vid mode)) := by
        intro e vid mode
        by_cases hvid : vid = v
        · rw [if_pos hvid, hvid, rate_of_setBy_self]
        · rw [if_neg hvid, rate_of_setBy_other cur v vid mode e hvid]
      rcases lt_or_le (r.cooling.getD 0) 0 with hc | hc
      · rcases lt_or_le (r.heating.getD 0) 0 with hh | hh
        · -- both coerce to none: entry unmatched, nothing written
          have hstep : import_step s.vents_data (cur, used, a, u) (export_entry_of s (v, r))
              = (cur, used, a, u + 1) := by
            simp [import_step, export_entry_of, coerce_rate, hv, hsome, hc, hh]
          rw [hstep]
          exact ih cur used a (u + 1) hl_rest hndl.2 hcur hused
            (fun x hx => fun hmem => husedl x hx (by simp [hmem]))
        · -- cooling rejected, heating written back unchanged
          have hstep : import_step s.vents_data (cur, used, a, u) (export_entry_of s (v, r))
              = (setBy cur v
                  ⟨((lookupBy cur v).getD ⟨none, none⟩).cooling, some (r.heating.getD 0)⟩,
                 v :: used, a + 1, u) := by
            simp [import_step, export_entry_of, coerce_rate, hv, hsome, hc, not_lt.mpr hh]
          rw [hstep]
          refine ih _ _ _ _ hl_rest hndl.2 ?_ (List.nodup_cons.mpr ⟨hvnotused, hused⟩) ?_
          · intro vid mode
            rw [hrew]
            by_cases hvid : vid = v
            · rw [if_pos hvid, hvid]
              split_ifs with h1 h2
              · subst h1
                exact (rate_of_getD_cooling cur v).trans (hcur v "cooling")
              · subst h2
                unfold rate_of
                rw [hlook]
                simp
              · unfold rate_of
                rw [hlook]
                simp [h1, h2]
            · rw [if_neg hvid]
              exact hcur vid mode
          · intro x hx
            rcases List.mem_cons.mp hx with rfl | hx2
            · exact hndl.1
            · exact fun hmem => husedl x hx2 (by simp [hmem])
      · rcases lt_or_le (r.heating.getD 0) 0 with hh | hh
        · -- heating rejected, cooling written back unchanged
          have hstep : import_step s.vents_data (cur, used, a, u) (export_entry_of s (v, r))
              = (setBy cur v
                  ⟨some (r.cooling.getD 0), ((lookupBy cur v).getD ⟨none, none⟩).heating⟩,
                 v :: used, a + 1, u) := by
            simp [import_step, export_entry_of, coerce_rate, hv, hsome, not_lt.mpr hc, hh]
          rw [hstep]
          refine ih _ _ _ _ hl_rest hndl.2 ?_ (List.nodup_cons.mpr ⟨hvnotused, hused⟩) ?_
          · intro vid mode
            rw [hrew]
            by_cases hvid : vid = v
            · rw [if_pos hvid, hvid]
              split_ifs with h1 h2
              · subst h1
                unfold rate_of
                rw [hlook]
                simp
              · subst h2
                exact (rate_of_getD_heating cur v).trans (hcur v "heating")
              · unfold rate_of
                rw [hlook]
                simp [h1, h2]
            · rw [if_neg hvid]
              exact hcur vid mode
          · intro x hx
            rcases List.mem_cons.mp hx with rfl | hx2
            · exact hndl.1
            · exact fun hmem => husedl x hx2 (by simp [hmem])
        · -- both written back unchanged
          have hstep : import_step s.vents_data (cur, used, a, u) (export_entry_of s (v, r))
              = (setBy cur v ⟨some (r.cooling.getD 0), some (r.heating.getD 0)⟩,
                 v :: used, a + 1, u) := by
            simp [import_step, export_entry_of, coerce_rate, hv, hsome, not_lt.mpr hc,
              not_lt.mpr hh]
          rw [hstep]
          refine ih _ _ _ _ hl_rest hndl.2 ?_ (List.nodup_cons.mpr ⟨hvnotused, hused⟩) ?_
          · intro vid mode
            rw [hrew]
            by_cases hvid : vid = v
            · rw [if_pos hvid, hvid]
              split_ifs with h1 h2
              · subst h1
                unfold rate_of
                rw [hlook]
                simp
              · subst h2
                unfold rate_of
                rw [hlook]
                simp
              · unfold rate_of
                rw [hlook]
                simp [h1, h2]
            · rw [if_neg hvid]
              exact hcur vid mode
          · intro x hx
            rcases List.mem_cons.mp hx with rfl | hx2
            · exact hndl.1
            · exact fun hmem => husedl x hx2 (by simp [hmem])

/-- C5: importing the structure produced by `build_efficiency_export` back
through `async_import_efficiency` reproduces the same per-vent cooling and
heating rates (each entry matched primarily by vent id, falling back to room
id and then case-insensitive room name), and each vent is used at most once in
the import (the `used_vents` list is duplicate-free).  Hypotheses: the
`_vent_rates` keys are distinct (Python dict keys) and nonempty. -/
theorem efficiency_export_import_round_trip (s : CoordState)
    (hnd : (s.vent_rates.map Prod.fst).Nodup)
    (hne : ∀ k ∈ s.vent_rates.map Prod.fst, k ≠ "") :
    (∀ vid mode,
      get_rate (import_efficiency s (build_efficiency_export s)).1 vid mode
        = get_rate s vid mode) ∧
    (import_efficiency s (build_efficiency_export s)).2.1.Nodup := by
  have hl : ∀ p ∈ s.vent_rates, lookupBy s.vent_rates p.1 = some p.2 ∧ p.1 ≠ "" := by
    intro p hp
    exact ⟨lookupBy_eq_of_nodup s.vent_rates p hnd hp,
      hne p.1 (List.mem_map.mpr ⟨p, hp, rfl⟩)⟩
  have hfold := import_fold_preserves s s.vent_rates s.vent_rates [] 0 0 hl hnd
    (fun vid mode => rfl) List.nodup_nil (fun x hx => absurd hx (List.not_mem_nil x))
  exact hfold

/-- Witness for C5: the round trip applied to a one-vent state. -/
theorem efficiency_export_import_round_trip_witness :
    get_rate
      (import_efficiency
        { vent_rates := [("v1", ⟨some (2/5), none⟩)], max_cooling := some (1/2),
          max_heating := none, vents_data := [("v1", ⟨some "r1", some "Room One"⟩)] }
        (build_efficiency_export
          { vent_rates := [("v1", ⟨some (2/5), none⟩)], max_cooling := some (1/2),
            max_heating := none, vents_data := [("v1", ⟨some "r1", some "Room One"⟩)] })).1
      "v1" "cooling"
    = get_rate
      { vent_rates := [("v1", ⟨some (2/5), none⟩)], max_cooling := some (1/2),
        max_heating := none, vents_data := [("v1", ⟨some "r1", some "Room One"⟩)] }
      "v1" "cooling" :=
  (efficiency_export_import_round_trip _ (by simp) (by simp)).1 "v1" "cooling"

lemma exp_y_bounds :
    (1318505/1000000 : ℝ) ≤ Real.exp (2491/9009)
      ∧ Real.exp (2491/9009) ≤ 1318510/1000000 := by
  have hy : |(2491 : ℝ)/9009| ≤ 1 := by
    rw [abs_of_nonneg (by norm_num)]
    norm_num
  have hb := Real.exp_bound hy (by norm_num : 0 < 6)
  rw [Finset.sum_range_succ, Finset.sum_range_succ, Finset.sum_range_succ,
    Finset.sum_range_succ, Finset.sum_range_succ, Finset.sum_range_succ,
    Finset.sum_range_zero, abs_of_nonneg (by norm_num : (0:ℝ) ≤ 2491/9009),
    abs_sub_le_iff] at hb
  norm_num [Nat.factorial] at hb
  constructor <;> linarith [hb.1, hb.2]

lemma exp_x_bounds :
    (358406/100000 : ℝ) ≤ Real.exp (11500/9009)
      ∧ Real.exp (11500/9009) ≤ 358409/100000 := by
  have hsplit : (11500 : ℝ)/9009 = 1 + 2491/9009 := by norm_num
  rw [hsplit, Real.exp_add]
  have h1 := Real.exp_one_gt_d9
  have h2 := Real.exp_one_lt_d9
  have hy := exp_y_bounds
  have hypos : (0:ℝ) < Real.exp (2491/9009) := Real.exp_pos _
  have hepos : (0:ℝ) < Real.exp 1 := Real.exp_pos _
  constructor
  · calc (358406/100000 : ℝ) ≤ (2.7182818283 : ℝ) * (1318505/1000000) := by norm_num
      _ ≤ Real.exp 1 * Real.exp (2491/9009) :=
        mul_le_mul h1.le hy.1 (by norm_num) hepos.le
  · calc Real.exp 1 * Real.exp (2491/9009)
        ≤ (2.7182818286 : ℝ) * (1318510/1000000) :=
          mul_le_mul h2.le hy.2 hypos.le (by norm_num)
      _ ≤ 358409/100000 := by norm_num

/-- C3: `calculate_vent_open_percentage` returns 0 whenever the room already
satisfies the setpoint for the given mode, returns 100 whenever the rate is at
most 0 or the horizon is at most 0 while the setpoint is not satisfied, and on
the fixture input ("", 65, 70, "heating", 0.715, 12.6) with default settings
returns a value within 0.01 of 35.518 (it rounds to exactly 35.518). -/
theorem calculate_vent_open_percentage_spec :
    (∀ (nm : String) (start_temp setpoint : ℝ) (mode : String) (max_rate longest_time : ℝ),
      has_room_reached_setpointR mode setpoint start_temp 0 →
      calculate_vent_open_percentage nm start_temp setpoint mode max_rate longest_time
        DEFAULT_SETTINGS = 0) ∧
    (∀ (nm : String) (start_temp setpoint : ℝ) (mode : String) (max_rate longest_time : ℝ),
      ¬ has_room_reached_setpointR mode setpoint start_temp 0 →
      (max_rate ≤ 0 ∨ longest_time ≤ 0) →
      calculate_vent_open_percentage nm start_temp setpoint mode max_rate longest_time
        DEFAULT_SETTINGS = 100) ∧
    |calculate_vent_open_percentage "" 65 70 "heating" (715/1000) (126/10) DEFAULT_SETTINGS
      - 35518/1000| ≤ 1/100 := by
  refine ⟨?_, ?_, ?_⟩
  · intro nm start_temp setpoint mode max_rate longest_time h
    simp only [calculate_vent_open_percentage]
    rw [if_pos h]
  · intro nm start_temp setpoint mode max_rate longest_time h h2
    simp only [calculate_vent_open_percentage]
    rw [if_neg h, if_pos h2]
  · have hreach : ¬ has_room_reached_setpointR "heating" 70 65 0 := by
      unfold has_room_reached_setpointR
      rw [if_neg (by decide : ¬ ("heating" = "cooling"))]
      norm_num
    have hb : (DEFAULT_SETTINGS.base_const : ℝ) = 991/10000 := by
      rw [show DEFAULT_SETTINGS.base_const = (991/10000 : ℚ) from rfl]
      push_cast
      norm_num
    have harg : |(70:ℝ) - 65| / (126/10) / (715/1000) * ((DEFAULT_SETTINGS.exp_const : ℚ) : ℝ)
        = 11500/9009 := by
      rw [show DEFAULT_SETTINGS.exp_const = (23/10 : ℚ) from rfl,
        abs_of_nonneg (by norm_num : (0:ℝ) ≤ 70 - 65)]
      push_cast
      norm_num
    have hE := exp_x_bounds
    have hlo : (35518 : ℝ) ≤ 9910 * Real.exp (11500/9009) := by linarith [hE.1]
    have hhi : 9910 * Real.exp (11500/9009) < 35518 + 1/2 := by linarith [hE.2]
    have hfl : ⌊9910 * Real.exp (11500/9009)⌋ = (35518 : ℤ) := by
      rw [Int.floor_eq_iff]
      constructor
      · exact_mod_cast hlo
      · push_cast
        linarith
    have hfr : Int.fract (9910 * Real.exp (11500/9009)) < 1/2 := by
      rw [Int.fract, hfl]
      push_cast
      linarith
    have hround : roundHalfEvenR (9910 * Real.exp (11500/9009)) = 35518 := by
      unfold roundHalfEvenR
      rw [if_pos hfr, hfl]
    have hrbd : round_big_decimalR
        ((DEFAULT_SETTINGS.base_const : ℝ) * Real.exp (11500/9009) * 100) 3 = 35518/1000 := by
      unfold round_big_decimalR
      rw [show (DEFAULT_SETTINGS.base_const : ℝ) * Real.exp (11500/9009) * 100 * 10 ^ 3
          = 9910 * Real.exp (11500/9009) from by rw [hb]; ring]
      rw [hround]
      norm_num
    simp only [calculate_vent_open_percentage]
    rw [if_neg hreach,
      if_neg (by push_cast; norm_num : ¬ ((715/1000 : ℝ) ≤ 0 ∨ (126/10 : ℝ) ≤ 0)),
      harg, hrbd]
    rw [if_neg (by norm_num : ¬ (35518/1000 : ℝ) < 0),
      if_neg (by norm_num : ¬ (100 : ℝ) < 35518/1000)]
    norm_num

/-- Witness for C3: the first two parts applied at concrete inputs. -/
theorem calculate_vent_open_percentage_spec_witness :
    calculate_vent_open_percentage "" 20 25 "cooling" 1 1 DEFAULT_SETTINGS = 0 ∧
    calculate_vent_open_percentage "" 20 25 "heating" 0 1 DEFAULT_SETTINGS = 100 :=
  ⟨calculate_vent_open_percentage_spec.1 "" 20 25 "cooling" 1 1
      (by unfold has_room_reached_setpointR; rw [if_pos rfl]; norm_num),
   calculate_vent_open_percentage_spec.2.1 "" 20 25 "heating" 0 1
      (by unfold has_room_reached_setpointR
          rw [if_neg (by decide : ¬ ("heating" = "cooling"))]
          norm_num) (Or.inl le_rfl)⟩
